import Mathlib

/-!
# CogniShare Protocol — citation-to-payment settlement engine

Shallow embedding of the settlement core of the CogniShare repository
(`payment_manager.py` and the x402 gate of `app.py`), together with proofs
of the specified properties.

Modelling conventions:
* Python strings become `String`; Python's `str[:n]` becomes `String.take n`.
* CRO amounts (Python floats used only for small exact decimal arithmetic)
  become `ℚ`.
* The external web3 node is modelled as an oracle (`NodeOracle`): for the
  i-th payment attempt of a batch it answers the `get_transaction_count`
  query, decides whether the contract `build_transaction` call raises, and
  decides the outcome of `send_raw_transaction`.
* `hashlib.sha256` is embedded as a full executable SHA-256 over byte lists.
* `time.time()` used for fake mock transaction hashes is an external input,
  modelled as a function from the attempt index to its string rendering.
-/

set_option autoImplicit false
set_option maxRecDepth 16384

namespace CogniShare

/-! ## SHA-256 (embedding of `hashlib.sha256`)

Executable SHA-256 over lists of bytes (`Nat`s below 256), with 32-bit
words represented as `Nat` reduced modulo `2 ^ 32`. -/

/-- Truncate to a 32-bit word. -/
def w32 (n : Nat) : Nat := n % 4294967296

/-- Right rotation of a 32-bit word. -/
def rotr32 (x n : Nat) : Nat := w32 ((x >>> n) ||| (x <<< (32 - n)))

/-- Bitwise complement of a 32-bit word. -/
def not32 (x : Nat) : Nat := x ^^^ 4294967295

/-- SHA-256 `Ch` function. -/
def sha2ch (x y z : Nat) : Nat := (x &&& y) ^^^ (not32 x &&& z)

/-- SHA-256 `Maj` function. -/
def sha2maj (x y z : Nat) : Nat := (x &&& y) ^^^ (x &&& z) ^^^ (y &&& z)

/-- SHA-256 big sigma-0. -/
def bsig0 (x : Nat) : Nat := rotr32 x 2 ^^^ rotr32 x 13 ^^^ rotr32 x 22

/-- SHA-256 big sigma-1. -/
def bsig1 (x : Nat) : Nat := rotr32 x 6 ^^^ rotr32 x 11 ^^^ rotr32 x 25

/-- SHA-256 small sigma-0. -/
def ssig0 (x : Nat) : Nat := rotr32 x 7 ^^^ rotr32 x 18 ^^^ (x >>> 3)

/-- SHA-256 small sigma-1. -/
def ssig1 (x : Nat) : Nat := rotr32 x 17 ^^^ rotr32 x 19 ^^^ (x >>> 10)

/-- The 64 SHA-256 round constants (FIPS 180-4, written in decimal). -/
def sha2K : List Nat :=
  [1116352408, 1899447441, 3049323471, 3921009573, 961987163,
   1508970993, 2453635748, 2870763221, 3624381080, 310598401,
   607225278, 1426881987, 1925078388, 2162078206, 2614888103,
   3248222580, 3835390401, 4022224774, 264347078, 604807628,
   770255983, 1249150122, 1555081692, 1996064986, 2554220882,
   2821834349, 2952996808, 3210313671, 3336571891, 3584528711,
   113926993, 338241895, 666307205, 773529912, 1294757372,
   1396182291, 1695183700, 1986661051, 2177026350, 2456956037,
   2730485921, 2820302411, 3259730800, 3345764771, 3516065817,
   3600352804, 4094571909, 275423344, 430227734, 506948616,
   659060556, 883997877, 958139571, 1322822218, 1537002063,
   1747873779, 1955562222, 2024104815, 2227730452, 2361852424,
   2428436474, 2756734187, 3204031479, 3329325298]

/-- The SHA-256 initial hash state (FIPS 180-4, written in decimal). -/
def sha2H0 : List Nat :=
  [1779033703, 3144134277, 1013904242, 2773480762,
   1359893119, 2600822924, 528734635, 1541459225]

/-- Pack a list of bytes (big-endian, length a multiple of 4) into 32-bit words. -/
def toWords : List Nat → List Nat
  | b1 :: b2 :: b3 :: b4 :: rest => (((b1 * 256 + b2) * 256 + b3) * 256 + b4) :: toWords rest
  | _ => []

/-- Big-endian byte rendering of `n` on `k` bytes. -/
def natToBytesBE (k n : Nat) : List Nat :=
  match k with
  | 0 => []
  | k + 1 => natToBytesBE k (n / 256) ++ [n % 256]

/-- Split a byte list into 64-byte chunks. -/
def chunks64 (l : List Nat) : List (List Nat) :=
  match l with
  | [] => []
  | x :: rest => (x :: rest.take 63) :: chunks64 (rest.drop 63)
termination_by l.length
decreasing_by simp [List.length_drop]; omega

/-- Append the next word of the SHA-256 message schedule. -/
def schedNext (w : List Nat) : List Nat :=
  let t := w.length
  w ++ [w32 (ssig1 (w.getD (t - 2) 0) + w.getD (t - 7) 0 +
             ssig0 (w.getD (t - 15) 0) + w.getD (t - 16) 0)]

/-- Extend the 16 chunk words to the full 64-word schedule. -/
def schedule (w : List Nat) : List Nat :=
  (List.range 48).foldl (fun acc _ => schedNext acc) w

/-- One SHA-256 compression round on the 8-word working state. -/
def round1 (kt wt : Nat) (st : List Nat) : List Nat :=
  match st with
  | [a, b, c, d, e, f, g, h] =>
    let t1 := w32 (h + bsig1 e + sha2ch e f g + kt + wt)
    let t2 := w32 (bsig0 a + sha2maj a b c)
    [w32 (t1 + t2), a, b, c, w32 (d + t1), e, f, g]
  | other => other

/-- Process one 64-byte chunk, updating the 8-word hash state. -/
def compressChunk (hs : List Nat) (chunk : List Nat) : List Nat :=
  let w := schedule (toWords chunk)
  let st := (sha2K.zip w).foldl (fun s kw => round1 kw.1 kw.2 s) hs
  (hs.zip st).map fun p => w32 (p.1 + p.2)

/-- SHA-256 padding: append `0x80`, zeros, and the 64-bit big-endian bit length. -/
def sha256pad (msg : List Nat) : List Nat :=
  let l := msg.length
  let zeros := (120 - (l + 1) % 64) % 64
  msg ++ [0x80] ++ List.replicate zeros 0 ++ natToBytesBE 8 (8 * l)

/-- SHA-256 digest (32 bytes) of a byte list. -/
def sha256 (msg : List Nat) : List Nat :=
  let final := (chunks64 (sha256pad msg)).foldl compressChunk sha2H0
  (final.map (natToBytesBE 4)).flatten

/-- Lower-case hex digit for a value below 16. -/
def hexDigit (n : Nat) : Char :=
  if n < 10 then Char.ofNat (48 + n) else Char.ofNat (87 + n)

/-- Two-digit lower-case hex rendering of a byte. -/
def byteToHex (b : Nat) : String :=
  String.mk [hexDigit (b / 16), hexDigit (b % 16)]

/-- Lower-case hex rendering of a byte list (Python's `.hexdigest()` / `.hex()`). -/
def bytesToHex (bs : List Nat) : String :=
  String.join (bs.map byteToHex)

/-- UTF-8 encoding of one character (Python's `str.encode()`), as bytes. -/
def utf8Char (c : Char) : List Nat :=
  let n := c.toNat
  if n < 0x80 then [n]
  else if n < 0x800 then [0xC0 + n / 64, 0x80 + n % 64]
  else if n < 0x10000 then [0xE0 + n / 4096, 0x80 + (n / 64) % 64, 0x80 + n % 64]
  else [0xF0 + n / 262144, 0x80 + (n / 4096) % 64, 0x80 + (n / 64) % 64, 0x80 + n % 64]

/-- UTF-8 bytes of a string. -/
def strBytes (s : String) : List Nat :=
  (s.data.map utf8Char).flatten

/-- `hashlib.sha256(s.encode()).hexdigest()`. -/
def sha256hex (s : String) : String :=
  bytesToHex (sha256 (strBytes s))

/-! ## Data model (`payment_manager.py`) -/

/-- One retrieved source record handed to the payment manager, carrying the
fields the settlement engine reads (`author_wallet`, `text`).  The relevance
score is never read by the payment code and is omitted. -/
structure Source where
  author_wallet : String
  text : String
deriving Repr, DecidableEq

/-- The all-zero sentinel address `"0x" + "0"*40`. -/
def zeroAddress : String := "0x0000000000000000000000000000000000000000"

/-- The whitespace characters Python's `str.strip()` removes (ASCII range). -/
def pyIsSpace (c : Char) : Bool :=
  c = ' ' || c = '\t' || c = '\n' || c = '\r' || c = '\x0b' || c = '\x0c'

/-- Python's `str.strip()`: drop leading and trailing whitespace. -/
def pyStrip (s : String) : String :=
  String.mk (((s.data.dropWhile pyIsSpace).reverse.dropWhile pyIsSpace).reverse)

/-- Python's `str.startswith(marker)`. -/
def pyStartsWith (s marker : String) : Bool :=
  marker.data.isPrefixOf s.data

/-- Wallet validation from `pay_authors_with_content`
(`if wallet and len(wallet) == 42 and wallet.startswith("0x") and wallet != "0x" + "0"*40`). -/
def validWallet (wallet : String) : Bool :=
  wallet != "" && wallet.length == 42 && pyStartsWith wallet "0x" && wallet != zeroAddress

/-- Per-wallet aggregation entry (`wallet_data[wallet]`): citation count and the
list of truncated cited texts. -/
structure WalletData where
  count : Nat
  content_texts : List String
deriving Repr, DecidableEq

/-- Record one citation for `wallet` in the insertion-ordered dict `wd`
(Python dicts preserve insertion order; a new key is appended at the end). -/
def addCitation (wd : List (String × WalletData)) (wallet text : String) :
    List (String × WalletData) :=
  match wd with
  | [] => [(wallet, ⟨1, [text]⟩)]
  | (w, d) :: rest =>
    if w = wallet then (w, ⟨d.count + 1, d.content_texts ++ [text]⟩) :: rest
    else (w, d) :: addCitation rest wallet text

/-- One iteration of the validation/aggregation loop of
`pay_authors_with_content`: the wallet is stripped, validated, and either
aggregated (with the text truncated to 200 characters) or skipped. The second
component counts the records that took the skip branch. -/
def collectStep (acc : List (String × WalletData) × Nat) (source : Source) :
    List (String × WalletData) × Nat :=
  let wallet := pyStrip source.author_wallet
  if validWallet wallet then
    (addCitation acc.1 wallet (source.text.take 200), acc.2)
  else
    (acc.1, acc.2 + 1)

/-- The full aggregation loop over `sources`: returns the insertion-ordered
`wallet_data` dict and the number of skipped (invalid) records. -/
def collectWalletData (sources : List Source) : List (String × WalletData) × Nat :=
  sources.foldl collectStep ([], 0)

/-- One payment row built from an aggregation entry. -/
structure Payment where
  wallet : String
  citations : Nat
  amount : ℚ
  content_text : String
deriving Repr, DecidableEq

/-- Build the `payments` list of `pay_authors_with_content`: one row per
aggregated wallet, `amount = amount_per_citation * count`, and the cited texts
joined with `" | "`. -/
def mkPayments (rate : ℚ) (wd : List (String × WalletData)) : List Payment :=
  wd.map fun x =>
    { wallet := x.1
      citations := x.2.count
      amount := rate * (x.2.count : ℚ)
      content_text := String.intercalate " | " x.2.content_texts }

/-- One entry of the `tx_hashes` list of a payment result. -/
structure TxRecord where
  wallet : String
  amount : ℚ
  tx_hash : String
  status : String
deriving Repr, DecidableEq

/-- The result dict returned by `pay_authors_with_content` /
`_mock_payments` / `_real_payments`; optional keys that only some branches
set are `Option`s. -/
structure PayResult where
  success : Bool
  tx_hashes : List TxRecord
  total_paid : ℚ
  unique_authors : Nat
  mock_mode : Bool
  error : Option String := none
  errors : Option (List String) := none
  message : Option String := none
deriving Repr, DecidableEq

/-! ## Backend adapter (`_send_cro`, `_send_via_contract`, `_send_direct_transfer`) -/

/-- Static backend configuration of a `CronosPayment` instance: whether the
registry-contract variant was activated at load time and whether a contract
handle exists. `chain_id` and `sender_address` are carried for completeness;
they are copied into transactions but never influence the recorded outcome. -/
structure ChainConfig where
  use_smart_contract : Bool
  has_contract : Bool
  chain_id : Nat
  sender_address : String
deriving Repr, DecidableEq

/-- Oracle for the external node during one batch.  Attempt `i` makes exactly
one `get_transaction_count` query (`txCount i`), at most one contract
`build_transaction` call (raising `buildErr i` when `some`), and at most one
`send_raw_transaction` call whose outcome is `sendResult i` (the transaction
hash, or the raised error message).  The `gas_price` query is elided: its
answer is copied into the transaction but never influences any recorded
outcome. -/
structure NodeOracle where
  txCount : Nat → Nat
  buildErr : Nat → Option String
  sendResult : Nat → Except String String

/-- A successfully submitted transaction: the nonce it carried, whether it
went through the registry contract, and the returned hash. -/
structure SentTx where
  nonce : Nat
  viaContract : Bool
  hash : String
deriving Repr, DecidableEq

/-- CRO-to-Wei conversion (`w3.to_wei(amount_cro, "ether")`). -/
def toWei (cro : ℚ) : ℚ := cro * 1000000000000000000

/-- `_send_via_contract`: queries the nonce, builds the `payCitation`
transaction (which may raise), signs and submits it. -/
def sendViaContract (node : NodeOracle) (i : Nat) (_to_address : String)
    (_amount_wei : ℚ) (_content_hash : String) : Except String SentTx :=
  let nonce := node.txCount i
  match node.buildErr i with
  | some e => Except.error e
  | none =>
    match node.sendResult i with
    | Except.ok h => Except.ok ⟨nonce, true, h⟩
    | Except.error e => Except.error e

/-- `_send_direct_transfer`: queries the nonce, builds a plain value-transfer
transaction, signs and submits it. -/
def sendDirectTransfer (node : NodeOracle) (i : Nat) (_to_address : String)
    (_amount_wei : ℚ) : Except String SentTx :=
  let nonce := node.txCount i
  match node.sendResult i with
  | Except.ok h => Except.ok ⟨nonce, false, h⟩
  | Except.error e => Except.error e

/-- `_send_cro`: contract path when `use_smart_contract and contract`, else
direct transfer.  There is no exception handler here: a failure on either
path propagates to the caller. -/
def sendCro (cfg : ChainConfig) (node : NodeOracle) (i : Nat) (p : Payment)
    (content_hash : String) : Except String SentTx :=
  let amount_wei := toWei p.amount
  if cfg.use_smart_contract && cfg.has_contract then
    sendViaContract node i p.wallet amount_wei content_hash
  else
    sendDirectTransfer node i p.wallet amount_wei

/-! ## Contract loading (`_load_smart_contract`) -/

/-- Outcome of reading and validating `contract_data.json`, one constructor
per early-return branch of `_load_smart_contract`. -/
inductive ContractLoad where
  | fileMissing
  | jsonError (msg : String)
  | missingFields (missing : List String)
  | badAddress (addr : String)
  | abiNotList
  | missingFunction (fn : String)
  | statsUnreachable (msg : String)
  | ok (address : String) (abiFunctions : List String)
deriving Repr, DecidableEq

/-- The `use_smart_contract` flag computed by `_load_smart_contract`: false
when the file is missing, when mock mode is active, or when any validation
step fails; true only when every check passed. -/
def loadSmartContract (mock_mode : Bool) (ld : ContractLoad) : Bool :=
  if ld = ContractLoad.fileMissing then false
  else if mock_mode then false
  else
    match ld with
    | ContractLoad.ok _ _ => true
    | _ => false

/-! ## Content digest (`_generate_content_hash`) -/

/-- `_generate_content_hash`: SHA-256 of `f"{author_wallet}:{content_text[:100]}"`,
keeping the first 32 hex characters behind a `0x` marker. -/
def generateContentHash (author_wallet content_text : String) : String :=
  let combined := author_wallet ++ ":" ++ content_text.take 100
  "0x" ++ (sha256hex combined).take 32

/-! ## Settlement (`_real_payments`, `_mock_payments`, `pay_authors_with_content`) -/

/-- The outcome of one real payment attempt: content hash generation followed
by `_send_cro`, inside the per-payment `try`. -/
def attemptOutcome (cfg : ChainConfig) (node : NodeOracle) (i : Nat)
    (p : Payment) : Except String SentTx :=
  sendCro cfg node i p (generateContentHash p.wallet p.content_text)

/-- The error string recorded when paying `p` raised `e`
(`f"Failed to pay {payment['wallet'][:10]}...: {str(e)}"`). -/
def failMsg (p : Payment) (e : String) : String :=
  "Failed to pay " ++ p.wallet.take 10 ++ "...: " ++ e

/-- One iteration of the `_real_payments` loop, threading
`(tx_hashes, total_paid, errors)` through the indexed payment list. -/
def realStep (cfg : ChainConfig) (node : NodeOracle)
    (acc : List TxRecord × ℚ × List String) (ip : Nat × Payment) :
    List TxRecord × ℚ × List String :=
  match attemptOutcome cfg node ip.1 ip.2 with
  | Except.ok tx =>
    (acc.1 ++ [⟨ip.2.wallet, ip.2.amount, tx.hash, "sent"⟩], acc.2.1 + ip.2.amount, acc.2.2)
  | Except.error e =>
    (acc.1, acc.2.1, acc.2.2 ++ [failMsg ip.2 e])

/-- `_real_payments`: iterate the payments in order, record a `"sent"` entry
and add to the total on success, record an error string on failure, and set
`success = len(tx_hashes) > 0`. -/
def realPayments (cfg : ChainConfig) (node : NodeOracle)
    (payments : List Payment) : PayResult :=
  let st := payments.enum.foldl (realStep cfg node) ([], 0, [])
  { success := decide (0 < st.1.length)
    tx_hashes := st.1
    total_paid := st.2.1
    unique_authors := st.1.length
    mock_mode := false
    errors := if st.2.2 = [] then none else some st.2.2 }

/-- The fake transaction hash `_mock_payments` fabricates for the `i`-th
payment: SHA-256 of the wallet concatenated with the rendered `time.time()`
reading (an external input, supplied by `timeStr`). -/
def mockHash (timeStr : Nat → String) (i : Nat) (p : Payment) : String :=
  "0x" ++ sha256hex (p.wallet ++ timeStr i)

/-- `_mock_payments`: every payment gets a simulated record, and `success`
is unconditionally true. -/
def mockPayments (timeStr : Nat → String) (payments : List Payment) : PayResult :=
  { success := true
    tx_hashes := payments.enum.map fun ip =>
      ⟨ip.2.wallet, ip.2.amount, mockHash timeStr ip.1 ip.2, "simulated"⟩
    total_paid := (payments.map Payment.amount).sum
    unique_authors := payments.length
    mock_mode := true
    message := some "⚠️ Mock mode - no real transactions sent" }

/-- `pay_authors_with_content`: validate and aggregate the sources, return
the `"No valid wallets to pay"` failure when no wallet survived validation
(in either mode), otherwise build the payments and dispatch on mock mode. -/
def payAuthorsWithContent (cfg : ChainConfig) (node : NodeOracle)
    (timeStr : Nat → String) (mock_mode : Bool) (sources : List Source)
    (rate : ℚ) : PayResult :=
  let wd := (collectWalletData sources).1
  if wd = [] then
    { success := false
      error := some "No valid wallets to pay"
      tx_hashes := []
      total_paid := 0
      unique_authors := 0
      mock_mode := mock_mode }
  else
    let payments := mkPayments rate wd
    if mock_mode then mockPayments timeStr payments
    else realPayments cfg node payments

/-- `pay_authors` (legacy entry point): convert the wallet list to sources
with empty text and delegate to `pay_authors_with_content`. -/
def payAuthors (cfg : ChainConfig) (node : NodeOracle) (timeStr : Nat → String)
    (mock_mode : Bool) (author_wallets : List String) (rate : ℚ) : PayResult :=
  let sources := author_wallets.map fun wallet => { author_wallet := wallet, text := "" }
  payAuthorsWithContent cfg node timeStr mock_mode sources rate

/-! ## Gating (`app.py`, x402 check after `pay_authors`) -/

/-- The x402 gate of `app.py`: when the payment result is not successful, the
request continues only in mock mode (with a warning); in real mode
`st.stop()` halts it.  A successful result always proceeds to generation. -/
def mayProceed (payment_result : PayResult) : Bool :=
  if !payment_result.success then
    if payment_result.mock_mode then true else false
  else true

/-! ## Derived views of the settlement loop -/

/-- The `tx_hashes` record the `i`-th attempt contributes when it succeeds. -/
def sentRecordOf (cfg : ChainConfig) (node : NodeOracle) (ip : Nat × Payment) :
    Option TxRecord :=
  match attemptOutcome cfg node ip.1 ip.2 with
  | Except.ok tx => some ⟨ip.2.wallet, ip.2.amount, tx.hash, "sent"⟩
  | Except.error _ => none

/-- The amount the `i`-th attempt adds to `total_paid` when it succeeds. -/
def sentAmountOf (cfg : ChainConfig) (node : NodeOracle) (ip : Nat × Payment) :
    Option ℚ :=
  match attemptOutcome cfg node ip.1 ip.2 with
  | Except.ok _ => some ip.2.amount
  | Except.error _ => none

/-- The error string the `i`-th attempt contributes when it fails. -/
def errorMsgOf (cfg : ChainConfig) (node : NodeOracle) (ip : Nat × Payment) :
    Option String :=
  match attemptOutcome cfg node ip.1 ip.2 with
  | Except.ok _ => none
  | Except.error e => some (failMsg ip.2 e)

/-- The digests `_real_payments` would compute for a batch of sources: one
per aggregated author, via `_generate_content_hash`. -/
def digestsOf (sources : List Source) (rate : ℚ) : List String :=
  (mkPayments rate (collectWalletData sources).1).map fun p =>
    generateContentHash p.wallet p.content_text

/-- Sum of the citation counts over the aggregation dict. -/
def sumCounts (wd : List (String × WalletData)) : Nat :=
  (wd.map fun x => x.2.count).sum

/-- The wallet format the specification's words describe: fixed-length (42)
hex address with the required `0x` marker at the front and not the all-zero
sentinel.  Stated from the spec for comparison with `validWallet`. -/
def specWalletFormat (w : String) : Bool :=
  w.length == 42 && pyStartsWith w "0x" &&
    ((w.drop 2).data.all fun c =>
      c.isDigit || ('a' ≤ c && c ≤ 'f') || ('A' ≤ c && c ≤ 'F')) &&
    w != zeroAddress

/-! ## Concrete fixtures used by scenarios and counterexamples -/

/-- A valid 42-character author wallet. -/
def walletA : String := "0xAAAAAAAAAAAAAAAAAAAAAAAAAAAAAAAAAAAAAAAA"

/-- A second valid 42-character author wallet. -/
def walletB : String := "0xBBBBBBBBBBBBBBBBBBBBBBBBBBBBBBBBBBBBBBBB"

/-- A 42-character identifier with the `0x` marker but non-hex body. -/
def badHexWallet : String := "0xzzzzzzzzzzzzzzzzzzzzzzzzzzzzzzzzzzzzzzzz"

/-- Direct-transfer configuration (no registry contract active). -/
def cfgDirect : ChainConfig := ⟨false, false, 338, walletB⟩

/-- Registry-contract configuration (contract loaded and activated). -/
def cfgContract : ChainConfig := ⟨true, true, 338, walletB⟩

/-- A node where the first submission raises and the second succeeds. -/
def nodeMix : NodeOracle :=
  ⟨fun _ => 7, fun _ => none,
   fun i => if i = 0 then Except.error "insufficient funds" else Except.ok "0xface"⟩

/-- A node whose reported transaction count never advances (pending
submissions not yet reflected), with every submission accepted. -/
def nodeConst : NodeOracle :=
  ⟨fun _ => 5, fun _ => none, fun _ => Except.ok "0xabc"⟩

/-- A node where the contract transaction fails to build on attempt 0 but
raw submissions would succeed. -/
def nodeBuildFail : NodeOracle :=
  ⟨fun _ => 5, fun i => if i = 0 then some "malformed ABI" else none,
   fun _ => Except.ok "0xfff"⟩

/-- Payment row for `walletA`, one citation at rate `0.01`. -/
def pay1 : Payment := ⟨walletA, 1, 1/100, ""⟩

/-- Payment row for `walletB`, one citation at rate `0.01`. -/
def pay2 : Payment := ⟨walletB, 1, 1/100, ""⟩

/-- A fixed rendering of the `time.time()` input. -/
def timeFixed : Nat → String := fun _ => "1700000000.0"

/-- A payment result with `success=false` in enforcing mode. -/
def resultEnforcingFailed : PayResult :=
  { success := false, tx_hashes := [], total_paid := 0,
    unique_authors := 0, mock_mode := false }

/-- The three-record scenario input of the specification: `walletA` cited
twice, `walletB` once. -/
def srcScenario : List Source := [⟨walletA, "x"⟩, ⟨walletA, "y"⟩, ⟨walletB, "z"⟩]

/-! ## Helper lemmas -/

theorem foldl_realStep (cfg : ChainConfig) (node : NodeOracle)
    (l : List (Nat × Payment)) (acc : List TxRecord × ℚ × List String) :
    l.foldl (realStep cfg node) acc =
      (acc.1 ++ l.filterMap (sentRecordOf cfg node),
       acc.2.1 + ((l.filterMap (sentAmountOf cfg node)).sum),
       acc.2.2 ++ l.filterMap (errorMsgOf cfg node)) := by
  induction l generalizing acc with
  | nil => simp
  | cons hd tl ih =>
    simp only [List.foldl_cons]
    rw [ih]
    cases h : attemptOutcome cfg node hd.1 hd.2 <;>
      simp [realStep, sentRecordOf, errorMsgOf, sentAmountOf, h, List.filterMap_cons,
        List.append_assoc, add_assoc]

theorem realPayments_tx_hashes (cfg : ChainConfig) (node : NodeOracle)
    (payments : List Payment) :
    (realPayments cfg node payments).tx_hashes =
      payments.enum.filterMap (sentRecordOf cfg node) := by
  simp [realPayments, foldl_realStep]

theorem realPayments_errorList (cfg : ChainConfig) (node : NodeOracle)
    (payments : List Payment) :
    (realPayments cfg node payments).errors.getD [] =
      payments.enum.filterMap (errorMsgOf cfg node) := by
  simp only [realPayments, foldl_realStep, List.nil_append]
  by_cases h : payments.enum.filterMap (errorMsgOf cfg node) = [] <;> simp [h]

theorem realPayments_success (cfg : ChainConfig) (node : NodeOracle)
    (payments : List Payment) :
    (realPayments cfg node payments).success =
      decide (0 < (payments.enum.filterMap (sentRecordOf cfg node)).length) := by
  simp [realPayments, foldl_realStep]

theorem sent_status (cfg : ChainConfig) (node : NodeOracle)
    (l : List (Nat × Payment)) :
    ∀ tx ∈ l.filterMap (sentRecordOf cfg node), tx.status = "sent" := by
  intro tx htx
  obtain ⟨ip, _, hip⟩ := List.mem_filterMap.mp htx
  unfold sentRecordOf at hip
  cases h : attemptOutcome cfg node ip.1 ip.2 <;> rw [h] at hip
  · cases hip
  · cases hip; rfl

theorem sent_error_split (cfg : ChainConfig) (node : NodeOracle)
    (l : List (Nat × Payment)) :
    (l.filterMap (sentRecordOf cfg node)).length
      + (l.filterMap (errorMsgOf cfg node)).length = l.length := by
  induction l with
  | nil => rfl
  | cons hd tl ih =>
    cases h : attemptOutcome cfg node hd.1 hd.2 <;>
      simp [sentRecordOf, errorMsgOf, h, List.filterMap_cons] <;> omega

theorem sumCounts_addCitation (wd : List (String × WalletData)) (w t : String) :
    sumCounts (addCitation wd w t) = sumCounts wd + 1 := by
  induction wd with
  | nil => rfl
  | cons hd tl ih =>
    obtain ⟨hw, hd2⟩ := hd
    by_cases h : hw = w <;> simp [addCitation, h, sumCounts] at ih ⊢ <;> omega

theorem mem_addCitation (wd : List (String × WalletData)) (w t : String) :
    ∀ x ∈ addCitation wd w t, x.1 = w ∨ x.1 ∈ wd.map Prod.fst := by
  induction wd with
  | nil => simp [addCitation]
  | cons hd tl ih =>
    obtain ⟨hw, hd2⟩ := hd
    intro x hx
    by_cases h : hw = w
    · simp only [addCitation, if_pos h, List.mem_cons] at hx
      rcases hx with hx | hx
      · rw [hx]; left; exact h
      · right; simp only [List.map_cons]
        exact List.mem_cons_of_mem _ (List.mem_map_of_mem Prod.fst hx)
    · simp only [addCitation, if_neg h, List.mem_cons] at hx
      rcases hx with hx | hx
      · rw [hx]; right; simp
      · rcases ih x hx with h1 | h1
        · left; exact h1
        · right; simp only [List.map_cons]
          exact List.mem_cons_of_mem _ h1

theorem collect_count (sources : List Source)
    (acc : List (String × WalletData) × Nat) :
    sumCounts (sources.foldl collectStep acc).1 + (sources.foldl collectStep acc).2
      = sumCounts acc.1 + acc.2 + sources.length := by
  induction sources generalizing acc with
  | nil => simp
  | cons s tl ih =>
    simp only [List.foldl_cons, List.length_cons]
    rw [ih]
    unfold collectStep
    by_cases h : validWallet (pyStrip s.author_wallet) <;>
      simp [h, sumCounts_addCitation] <;> omega

theorem collect_valid (sources : List Source)
    (acc : List (String × WalletData) × Nat)
    (hacc : ∀ x ∈ acc.1, validWallet x.1 = true) :
    ∀ x ∈ (sources.foldl collectStep acc).1, validWallet x.1 = true := by
  induction sources generalizing acc with
  | nil => exact hacc
  | cons s tl ih =>
    simp only [List.foldl_cons]
    apply ih
    unfold collectStep
    by_cases h : validWallet (pyStrip s.author_wallet)
    · simp only [if_pos h]
      intro x hx
      rcases mem_addCitation acc.1 (pyStrip s.author_wallet) (s.text.take 200) x hx with
        h1 | h1
      · rw [h1]; exact h
      · obtain ⟨y, hy, hyx⟩ := List.mem_map.mp h1
        rw [← hyx]; exact hacc y hy
    · simpa [if_neg h] using hacc

theorem realPayments_success_iff (cfg : ChainConfig) (node : NodeOracle)
    (payments : List Payment) :
    (realPayments cfg node payments).success = true ↔
      ∃ tx ∈ (realPayments cfg node payments).tx_hashes, tx.status = "sent" := by
  rw [realPayments_success, realPayments_tx_hashes]
  constructor
  · intro hs
    obtain ⟨tx, htx⟩ := List.exists_mem_of_length_pos (of_decide_eq_true hs)
    exact ⟨tx, htx, sent_status cfg node _ tx htx⟩
  · rintro ⟨tx, htx, -⟩
    exact decide_eq_true (List.length_pos_of_mem htx)

/-! ## Claims -/

/-- C1: for every settlement batch executed in enforcing (non-simulated)
mode, the returned `success` flag is true if and only if at least one
recorded attempt has status `"sent"`, i.e. at least one submission did not
raise. -/
theorem C1_enforcing_success_iff_sent (cfg : ChainConfig) (node : NodeOracle)
    (timeStr : Nat → String) (sources : List Source) (rate : ℚ) :
    (payAuthorsWithContent cfg node timeStr false sources rate).success = true ↔
      ∃ tx ∈ (payAuthorsWithContent cfg node timeStr false sources rate).tx_hashes,
        tx.status = "sent" := by
  unfold payAuthorsWithContent
  by_cases h : (collectWalletData sources).1 = []
  · simp [h]
  · simp only [if_neg h]
    exact realPayments_success_iff cfg node _

/-- C2 counterexample: in simulated (mock) mode with an empty source list —
zero valid authors, hence an empty aggregate sequence — the early
`"No valid wallets to pay"` return fires before the mock dispatch and the
result has `success = false`, contradicting "true unconditionally, including
when the aggregate sequence is empty". -/
theorem C2_counterexample :
    (payAuthorsWithContent cfgDirect nodeConst timeFixed true [] (1/100)).success
        = false ∧
      (payAuthorsWithContent cfgDirect nodeConst timeFixed true [] (1/100)).mock_mode
        = true :=
  ⟨rfl, rfl⟩

/-- C2 (amended): in simulated mode the returned flag is true whenever at
least one aggregate exists, regardless of the individual attempt outcomes;
with zero aggregates the early no-valid-wallets return yields
`success = false` even in simulated mode. -/
theorem C2_amended_simulated_success (cfg : ChainConfig) (node : NodeOracle)
    (timeStr : Nat → String) (sources : List Source) (rate : ℚ) :
    ((collectWalletData sources).1 ≠ [] →
      (payAuthorsWithContent cfg node timeStr true sources rate).success = true) ∧
    ((collectWalletData sources).1 = [] →
      (payAuthorsWithContent cfg node timeStr true sources rate).success = false) := by
  unfold payAuthorsWithContent
  constructor
  · intro h; simp only [if_neg h]; rfl
  · intro h; simp only [if_pos h]

/-- Witness for C2 (amended) at a single valid source in simulated mode. -/
theorem C2_amended_simulated_success_witness :
    (collectWalletData [⟨walletA, "t"⟩]).1 ≠ [] ∧
      (payAuthorsWithContent cfgDirect nodeConst timeFixed true [⟨walletA, "t"⟩]
        (1/100)).success = true :=
  ⟨by decide,
   (C2_amended_simulated_success cfgDirect nodeConst timeFixed [⟨walletA, "t"⟩]
     (1/100)).1 (by decide)⟩

/-- C3: the x402 gate of `app.py` lets generation proceed iff the settlement
succeeded when in enforcing (non-mock) mode, and always proceeds (with a
warning instead of a halt) in simulated (mock) mode. -/
theorem C3_gating (r : PayResult) :
    (r.mock_mode = false → (mayProceed r = true ↔ r.success = true)) ∧
      (r.mock_mode = true → mayProceed r = true) := by
  constructor <;> intro h <;> cases hs : r.success <;> simp [mayProceed, h, hs]

/-- Witness for C3 at a fully-failed enforcing-mode settlement. -/
theorem C3_gating_witness :
    resultEnforcingFailed.mock_mode = false ∧
      (mayProceed resultEnforcingFailed = true ↔
        resultEnforcingFailed.success = true) :=
  ⟨rfl, (C3_gating resultEnforcingFailed).1 rfl⟩

/-- C4 counterexample: with two aggregates where the backend raises for the
first and succeeds for the second, the recorded attempts list (`tx_hashes`)
has length 1 and contains no entry with status `"failed"` — contradicting
"attempts length = 2 with one `failed` and one `sent` entry". -/
theorem C4_counterexample :
    (realPayments cfgDirect nodeMix [pay1, pay2]).tx_hashes.length = 1 ∧
      ∀ tx ∈ (realPayments cfgDirect nodeMix [pay1, pay2]).tx_hashes,
        tx.status ≠ "failed" := by
  constructor
  · decide
  · decide

/-- C4 (amended): each aggregate yields exactly one recorded outcome — a
`"sent"` entry in `tx_hashes` on success, or an error string in `errors` on
failure; `tx_hashes` lists the successful attempts in input order, one
attempt's failure never prevents the remaining attempts from executing and
being recorded, and in the two-aggregate scenario the result has one sent
record, one error record, `total_paid = 0.01`, one author paid, and
`success = true`. -/
theorem C4_amended_attempt_accounting (cfg : ChainConfig) (node : NodeOracle)
    (payments : List Payment) :
    (realPayments cfg node payments).tx_hashes =
        payments.enum.filterMap (sentRecordOf cfg node) ∧
      (realPayments cfg node payments).errors.getD [] =
        payments.enum.filterMap (errorMsgOf cfg node) ∧
      (realPayments cfg node payments).tx_hashes.length +
          ((realPayments cfg node payments).errors.getD []).length
        = payments.length ∧
      (realPayments cfgDirect nodeMix [pay1, pay2]).tx_hashes.length = 1 ∧
      (realPayments cfgDirect nodeMix [pay1, pay2]).errors.getD [] =
        [failMsg pay1 "insufficient funds"] ∧
      (realPayments cfgDirect nodeMix [pay1, pay2]).unique_authors = 1 ∧
      (realPayments cfgDirect nodeMix [pay1, pay2]).total_paid = 1/100 ∧
      (realPayments cfgDirect nodeMix [pay1, pay2]).success = true := by
  refine ⟨realPayments_tx_hashes cfg node payments,
          realPayments_errorList cfg node payments, ?_, by decide, by decide,
          by decide, ?_, by decide⟩
  · rw [realPayments_tx_hashes, realPayments_errorList, sent_error_split,
      List.enum_length]
  · have he : ([pay1, pay2]).enum = [(0, pay1), (1, pay2)] := rfl
    have s0 : sentAmountOf cfgDirect nodeMix (0, pay1) = none := rfl
    have s1 : sentAmountOf cfgDirect nodeMix (1, pay2) = some (1/100) := rfl
    show (([pay1, pay2]).enum.foldl (realStep cfgDirect nodeMix) ([], 0, [])).2.1
        = 1/100
    rw [foldl_realStep, he]
    simp [List.filterMap_cons, s0, s1]

/-- C5: aggregation groups citation records by author and sets each
aggregate's amount to the per-citation rate times that author's citation
count; on the scenario input at rate `0.01` it yields exactly the two
payments `(walletA, 2, 0.02)` and `(walletB, 1, 0.01)`. -/
theorem C5_aggregation :
    (∀ (rate : ℚ) (sources : List Source),
        ∀ p ∈ mkPayments rate (collectWalletData sources).1,
          p.amount = rate * (p.citations : ℚ)) ∧
      mkPayments (1/100) (collectWalletData srcScenario).1 =
        [⟨walletA, 2, 1/50, "x | y"⟩, ⟨walletB, 1, 1/100, "z"⟩] := by
  constructor
  · intro rate sources p hp
    simp only [mkPayments, List.mem_map] at hp
    obtain ⟨x, hx, rfl⟩ := hp
    rfl
  · have h : (collectWalletData srcScenario).1 =
        [(walletA, ⟨2, ["x", "y"]⟩), (walletB, ⟨1, ["z"]⟩)] := by decide
    rw [h]
    simp only [mkPayments, List.map_cons, List.map_nil, Payment.mk.injEq]
    norm_num
    exact ⟨by decide, by decide⟩

/-- Witness for C5 at the first aggregate of the scenario. -/
theorem C5_aggregation_witness :
    (⟨walletA, 2, 1/50, "x | y"⟩ : Payment) ∈
        mkPayments (1/100) (collectWalletData srcScenario).1 ∧
      (⟨walletA, 2, 1/50, "x | y"⟩ : Payment).amount =
        (1/100) * ((⟨walletA, 2, 1/50, "x | y"⟩ : Payment).citations : ℚ) := by
  have hmem : (⟨walletA, 2, 1/50, "x | y"⟩ : Payment) ∈
      mkPayments (1/100) (collectWalletData srcScenario).1 := by
    rw [C5_aggregation.2]
    exact List.mem_cons_self _ _
  exact ⟨hmem, C5_aggregation.1 (1/100) srcScenario _ hmem⟩

/-- C6 counterexample: the 42-character identifier `"0x"` followed by forty
`'z'`s fails the spec's "fixed-length hex address" format, yet the code
accepts it — the record is aggregated rather than counted as skipped,
because validation never checks that the body characters are hex digits. -/
theorem C6_counterexample :
    specWalletFormat badHexWallet = false ∧
      validWallet badHexWallet = true ∧
      (collectWalletData [⟨badHexWallet, "t"⟩]).1.length = 1 ∧
      (collectWalletData [⟨badHexWallet, "t"⟩]).2 = 0 :=
  ⟨by decide, by decide, by decide, by decide⟩

/-- C6 (amended): every record is validated against length 42, the `0x`
marker and the non-zero sentinel (hex digits are not verified); every record
failing this validation is excluded from the aggregates and counted as
skipped — never a fatal error — the counts always balance
(sum of citation counts + skipped = number of records), and the
`"not-a-wallet"` scenario yields `skipped = 1` and exactly one aggregate. -/
theorem C6_amended_validation (sources : List Source) :
    (∀ x ∈ (collectWalletData sources).1, validWallet x.1 = true) ∧
      sumCounts (collectWalletData sources).1 + (collectWalletData sources).2
        = sources.length ∧
      (collectWalletData [⟨"not-a-wallet", "t1"⟩, ⟨walletA, "t2"⟩]).2 = 1 ∧
      (collectWalletData [⟨"not-a-wallet", "t1"⟩, ⟨walletA, "t2"⟩]).1.length
        = 1 := by
  refine ⟨collect_valid sources ([], 0) (by simp), ?_, by decide, by decide⟩
  simpa [sumCounts] using collect_count sources ([], 0)

/-- Witness for C6 (amended) at a single valid source. -/
theorem C6_amended_validation_witness :
    (walletA, (⟨1, ["t"]⟩ : WalletData)) ∈ (collectWalletData [⟨walletA, "t"⟩]).1 ∧
      validWallet (walletA, (⟨1, ["t"]⟩ : WalletData)).1 = true :=
  ⟨by decide, (C6_amended_validation [⟨walletA, "t"⟩]).1 _ (by decide)⟩

/-- C7: the code evaluated at the failing input.  Both transfer paths query
the node's transaction count afresh at submission time instead of assigning
base-nonce + i; with a node whose reported count stays at 5 — as when the
batch's earlier submissions are still pending — attempt 0 and attempt 1 are
both submitted with nonce 5, while the claim requires attempt 1 to carry
base-nonce + 1 = 6. -/
theorem C7_nonce_requery_collision :
    sendCro cfgDirect nodeConst 0 pay1 "" = Except.ok ⟨5, false, "0xabc"⟩ ∧
      sendCro cfgDirect nodeConst 1 pay2 "" = Except.ok ⟨5, false, "0xabc"⟩ ∧
      nodeConst.txCount 0 + 1 ≠ 5 :=
  ⟨rfl, rfl, by decide⟩

/-- C8 counterexample: with the registry variant active and a node where the
contract transaction for attempt 0 fails to build, `_send_cro` surfaces the
build error; it does not fall back to the direct transfer, which would have
succeeded on the same node. -/
theorem C8_counterexample :
    cfgContract.use_smart_contract = true ∧
      nodeBuildFail.buildErr 0 = some "malformed ABI" ∧
      sendCro cfgContract nodeBuildFail 0 pay1 "" = Except.error "malformed ABI" ∧
      sendDirectTransfer nodeBuildFail 0 pay1.wallet (toWei pay1.amount) =
        Except.ok ⟨5, false, "0xfff"⟩ ∧
      sendCro cfgContract nodeBuildFail 0 pay1 "" ≠
        sendDirectTransfer nodeBuildFail 0 pay1.wallet (toWei pay1.amount) := by
  refine ⟨rfl, rfl, rfl, rfl, ?_⟩
  intro h
  rw [show sendCro cfgContract nodeBuildFail 0 pay1 "" =
        Except.error "malformed ABI" from rfl,
    show sendDirectTransfer nodeBuildFail 0 pay1.wallet (toWei pay1.amount) =
        Except.ok ⟨5, false, "0xfff"⟩ from rfl] at h
  exact Except.noConfusion h

/-- C8 (amended): the direct-transfer fallback is decided mode-wide — any
load-time validation failure leaves `use_smart_contract = false`, after
which every attempt of every batch uses the direct transfer; during a
batch, a contract build failure makes that attempt fail (recorded as an
error) while the remaining attempts still execute — there is no
per-attempt fallback. -/
theorem C8_amended_modewide_fallback :
    (∀ (cfg : ChainConfig) (node : NodeOracle) (i : Nat) (p : Payment)
        (ch : String),
      cfg.use_smart_contract = false →
      sendCro cfg node i p ch = sendDirectTransfer node i p.wallet (toWei p.amount)) ∧
      (∀ (mock : Bool) (ld : ContractLoad),
        (∀ a fns, ld ≠ ContractLoad.ok a fns) → loadSmartContract mock ld = false) ∧
      (∀ (cfg : ChainConfig) (node : NodeOracle) (p : Payment)
          (rest : List Payment) (e : String),
        cfg.use_smart_contract = true → cfg.has_contract = true →
        node.buildErr 0 = some e →
        attemptOutcome cfg node 0 p = Except.error e ∧
          (realPayments cfg node (p :: rest)).tx_hashes =
            (rest.enumFrom 1).filterMap (sentRecordOf cfg node) ∧
          (realPayments cfg node (p :: rest)).errors.getD [] =
            failMsg p e :: (rest.enumFrom 1).filterMap (errorMsgOf cfg node)) := by
  refine ⟨?_, ?_, ?_⟩
  · intro cfg node i p ch h
    simp [sendCro, h]
  · intro mock ld h
    cases ld <;> first
      | exact absurd rfl (h _ _)
      | (cases mock <;> rfl)
  · intro cfg node p rest e h1 h2 hb
    have hout : attemptOutcome cfg node 0 p = Except.error e := by
      simp [attemptOutcome, sendCro, h1, h2, sendViaContract, hb]
    refine ⟨hout, ?_, ?_⟩
    · rw [realPayments_tx_hashes, List.enum_cons]
      simp [List.filterMap_cons, sentRecordOf, hout]
    · rw [realPayments_errorList, List.enum_cons]
      simp [List.filterMap_cons, errorMsgOf, hout]

/-- Witness for C8 (amended): the build-failure batch, with the error
recorded for attempt 0. -/
theorem C8_amended_modewide_fallback_witness :
    cfgContract.use_smart_contract = true ∧ cfgContract.has_contract = true ∧
      nodeBuildFail.buildErr 0 = some "malformed ABI" ∧
      (realPayments cfgContract nodeBuildFail [pay1, pay2]).errors.getD [] =
        failMsg pay1 "malformed ABI" ::
          ([pay2].enumFrom 1).filterMap (errorMsgOf cfgContract nodeBuildFail) :=
  ⟨rfl, rfl, rfl,
   (C8_amended_modewide_fallback.2.2 cfgContract nodeBuildFail pay1 [pay2]
     "malformed ABI" rfl rfl rfl).2.2⟩

/-- C9: the content digest computed during settlement is a deterministic
function of the author identifier and that author's cited excerpt text:
equal source batches give identical digest lists across repeated
aggregation calls, and the digests do not depend on the compensation
rate. -/
theorem C9_digest_deterministic :
    (∀ (s1 s2 : List Source) (rate : ℚ),
        s1 = s2 → digestsOf s1 rate = digestsOf s2 rate) ∧
      (∀ (sources : List Source) (r1 r2 : ℚ),
        digestsOf sources r1 = digestsOf sources r2) := by
  constructor
  · intro s1 s2 rate h
    rw [h]
  · intro sources r1 r2
    simp only [digestsOf, mkPayments, List.map_map]
    rfl

/-- Witness for C9 at a concrete single-source batch. -/
theorem C9_digest_deterministic_witness :
    ([⟨walletA, "text"⟩] : List Source) = [⟨walletA, "text"⟩] ∧
      digestsOf [⟨walletA, "text"⟩] (1/100) =
        digestsOf [⟨walletA, "text"⟩] (1/100) :=
  ⟨rfl, C9_digest_deterministic.1 _ _ (1/100) rfl⟩

/-- C10: the legacy entry point `pay_authors(wallets, rate)` returns exactly
the result of `pay_authors_with_content` on the wallets wrapped as sources
with empty cited text. -/
theorem C10_legacy_equivalent (cfg : ChainConfig) (node : NodeOracle)
    (timeStr : Nat → String) (mock_mode : Bool) (author_wallets : List String)
    (rate : ℚ) :
    payAuthors cfg node timeStr mock_mode author_wallets rate =
      payAuthorsWithContent cfg node timeStr mock_mode
        (author_wallets.map fun w => { author_wallet := w, text := "" }) rate :=
  rfl

end CogniShare
